import Mathlib

/-
Verification development for the bracuout_backend repository.

The component under study is the database-connection lifecycle manager of
the serverless server file: the `ensureDbConnected` Express middleware and
the `connectDB` cached-connection function, together with the enhanced
health-check handler of server.js.  The JavaScript runs on a single-threaded
cooperative event loop, so each synchronous block executes atomically; we
embed the manager as an explicit state machine whose atomic steps are
caller arrivals and the resolution (success or failure) of the one in-flight
mongoose.connect attempt.
-/

namespace BracuOut

/-- Shape of a JavaScript error value as inspected by connectDB:
`error.message`, `error.code` (may be undefined, hence Option) and
`error.name`. -/
structure JsError where
  message : String
  code : Option String
  name : String
deriving DecidableEq, Repr

/-- JSON body sent by ensureDbConnected on failure:
`res.status(500).json(...)` with a success flag and a message. -/
structure JsonBody where
  success : Bool
  message : String
deriving DecidableEq, Repr

/-- An HTTP response: status code plus JSON body. -/
structure HttpResponse where
  status : Nat
  body : JsonBody
deriving DecidableEq, Repr

/-- Options object passed to mongoose.connect by connectDB
(part_001 lines 324-331). -/
structure ConnectOptions where
  serverSelectionTimeoutMS : Nat
  socketTimeoutMS : Nat
  connectTimeoutMS : Nat
  bufferCommands : Bool
deriving DecidableEq, Repr

/-- The literal options of the source: serverSelectionTimeoutMS 5000,
socketTimeoutMS 45000, connectTimeoutMS 10000, bufferCommands false. -/
def connectOptions : ConnectOptions :=
  { serverSelectionTimeoutMS := 5000
    socketTimeoutMS := 45000
    connectTimeoutMS := 10000
    bufferCommands := false }

/-- What a single connectDB invocation does before any awaiting, as a
function of the cached handle and mongoose.connection.readyState
(part_001 lines 306-331): reuse the cached handle iff it is non-null AND
readyState equals 1; otherwise call mongoose.connect with the fixed
options. Connection handles are abstracted as natural-number ids. -/
inductive ConnectAction where
  | useCached (h : Nat)
  | attempt (opts : ConnectOptions)
deriving DecidableEq, Repr

/-- The branch structure of connectDB lines 308-331:
`if (cachedDb && mongoose.connection.readyState === 1) return cachedDb;`
else `await mongoose.connect(uri, options)`. -/
def connectDB (cachedDb : Option Nat) (readyState : Nat) : ConnectAction :=
  match cachedDb with
  | some h => if readyState = 1 then .useCached h else .attempt connectOptions
  | none => .attempt connectOptions

/-- How connectDB finishes once the attempt resolves
(part_001 lines 333-341 and 342-363): on success it stores the connection
in cachedDb and returns it; on failure it sets cachedDb to null and
re-throws the error.  Returns the new cachedDb value and the propagated
result. -/
def connectDBFinish : Except JsError Nat → Option Nat × Except JsError Nat
  | .ok conn => (some conn, .ok conn)
  | .error e => (none, .error e)

/-- Failure classification implicit in the if/else-if chain of
part_001 lines 348-356, keyed on error.code and error.name. -/
inductive FailureKind where
  | dnsResolution
  | connectionRefused
  | authFailure
  | timeout
  | unknown
deriving DecidableEq, Repr

/-- The classification chain of connectDB lines 348-356:
ENOTFOUND, then ECONNREFUSED, then MongoServerError, then
MongooseServerSelectionError, else unclassified. -/
def classifyError (e : JsError) : FailureKind :=
  if e.code = some "ENOTFOUND" then .dnsResolution
  else if e.code = some "ECONNREFUSED" then .connectionRefused
  else if e.name = "MongoServerError" then .authFailure
  else if e.name = "MongooseServerSelectionError" then .timeout
  else .unknown

/-- Rendering of error.code by console.error: an undefined code prints
as the string undefined. -/
def codeText : Option String → String
  | some c => c
  | none => "undefined"

/-- Kind-specific diagnostic line logged by the chain of lines 348-356. -/
def kindDiagnostic : FailureKind → List String
  | .dnsResolution => ["   DNS resolution failed - check your MongoDB URI"]
  | .connectionRefused =>
      ["   Connection refused - check if MongoDB is running and port is open"]
  | .authFailure =>
      ["   MongoDB server error - check credentials and network access"]
  | .timeout =>
      ["   Mongoose server selection error - check network access or URI"]
  | .unknown => []

/-- The structured diagnostic log emitted by the catch block of connectDB
(part_001 lines 343-361): error message, code, name, then the
kind-specific line. -/
def connectDBFailureLog (e : JsError) : List String :=
  ["[connectDB] Database connection failed:",
   "   Error: " ++ e.message,
   "   Code: " ++ codeText e.code,
   "   Name: " ++ e.name]
  ++ kindDiagnostic (classifyError e)
  ++ ["   Server will start but database operations will fail"]

/-- Observable effect of a code path on the process. -/
inductive ProcessEffect where
  | exit (code : Nat)
  | respond (r : HttpResponse)
  | listen (port : Nat)
  | callNext
deriving DecidableEq, Repr

/-- What ensureDbConnected does once its awaited connectDB call resolves
(part_001 lines 139-147): call next() on success, or send the constant
500 JSON body on failure.  The waiting branch (lines 126-135) sends the
same literal body on error, so one constructor covers both paths. -/
def ensureDbConnectedResult : Except JsError Nat → ProcessEffect
  | .ok _ => .callNext
  | .error _ =>
      .respond { status := 500
                 body := { success := false
                           message := "Failed to connect to database" } }

/-- The local (long-lived process) startup of part_001 lines 372-384:
connectDB().then(listen on PORT).catch(process.exit(1)). -/
def localStartup (r : Except JsError Nat) (port : Nat) : ProcessEffect :=
  match r with
  | .ok _ => .listen port
  | .error _ => .exit 1

/-- The long-lived variant of connectDB in server.js lines 279-290, whose
catch block calls process.exit(1) directly; it is invoked only at startup
and chains into app.listen on success. -/
def serverJsStartup (r : Except JsError Nat) (port : Nat) : ProcessEffect :=
  match r with
  | .ok _ => .listen port
  | .error _ => .exit 1

/-- Outcome observed by one caller of the ensureDbConnected middleware:
either its request proceeds (next()) or it receives the 500 response. -/
inductive Outcome where
  | proceed
  | error500
deriving DecidableEq, Repr

/-- The client-visible response for each middleware outcome: proceed sends
nothing from the middleware itself; error500 sends the constant body of
lines 134 and 145. -/
def outcomeResponse : Outcome → Option HttpResponse
  | .proceed => none
  | .error500 =>
      some { status := 500
             body := { success := false
                       message := "Failed to connect to database" } }

/-- Process-wide mutable state read and written by the manager:
mongoose.connection.readyState (0 disconnected, 1 connected, 2 connecting,
3 disconnecting), the cachedDb global of line 114, the set of callers
parked on the connected/error events of lines 126-129, the caller whose
connectDB call owns the in-flight attempt, and a ghost counter of
mongoose.connect invocations. -/
structure DbState where
  readyState : Nat
  cachedDb : Option Nat
  waiters : List Nat
  owner : Option Nat
  attempts : Nat
deriving DecidableEq, Repr

/-- State of a fresh process: mongoose starts disconnected, cachedDb null,
nobody waiting, no attempt made. -/
def initState : DbState :=
  { readyState := 0, cachedDb := none, waiters := [], owner := none
    attempts := 0 }

/-- Atomic events of the event-loop model: a request arrives at the
ensureDbConnected middleware, or the single in-flight mongoose.connect
attempt resolves with a connection handle or with an error. -/
inductive Event where
  | arrive (c : Nat)
  | resolveOk (h : Nat)
  | resolveErr (e : JsError)
deriving DecidableEq, Repr

/-- One atomic step of the manager, returning the new state and the
outcomes delivered in that step.  Arrival follows ensureDbConnected
lines 117-147: readyState 1 proceeds at once; readyState 2 parks the
caller on the shared connected/error events; otherwise connectDB runs,
whose fast path is unreachable here (readyState is not 1), so
mongoose.connect is called, moving readyState to 2.  Resolution follows
mongoose semantics plus connectDB lines 333 and 359: success sets
readyState 1 and caches the handle; failure returns readyState to 0 and
clears the cache; every parked caller and the owning caller observe the
single shared result. -/
def ensureStep : DbState → Event → DbState × List (Nat × Outcome)
  | s, .arrive c =>
      if s.readyState = 1 then (s, [(c, .proceed)])
      else if s.readyState = 2 then
        ({ s with waiters := s.waiters ++ [c] }, [])
      else
        ({ s with readyState := 2, owner := some c
                  attempts := s.attempts + 1 }, [])
  | s, .resolveOk h =>
      if s.readyState = 2 then
        ({ readyState := 1, cachedDb := some h, waiters := [], owner := none
           attempts := s.attempts },
         (s.owner.toList ++ s.waiters).map fun c => (c, .proceed))
      else (s, [])
  | s, .resolveErr _ =>
      if s.readyState = 2 then
        ({ readyState := 0, cachedDb := none, waiters := [], owner := none
           attempts := s.attempts },
         (s.owner.toList ++ s.waiters).map fun c => (c, .error500))
      else (s, [])

/-- Run a list of events through the step function, accumulating every
delivered outcome. -/
def runEvents (s : DbState) : List Event → DbState × List (Nat × Outcome)
  | [] => (s, [])
  | e :: es =>
      let p := ensureStep s e
      let q := runEvents p.1 es
      (q.1, p.2 ++ q.2)

/-- The resolution event corresponding to an attempt result. -/
def resolveEvent : Except JsError Nat → Event
  | .ok h => .resolveOk h
  | .error e => .resolveErr e

/-- The outcome every caller of a shared attempt observes, as a function
of that attempt's result. -/
def resolveOutcome : Except JsError Nat → Outcome
  | .ok _ => .proceed
  | .error _ => .error500

/-- Whether an event is the successful resolution of a connect attempt. -/
def isResolveOk : Event → Bool
  | .resolveOk _ => true
  | _ => false

/-- The readyState-to-text table of the enhanced health handler in
server.js lines 489-494, with the unknown default of line 502. -/
def dbStatusText (rs : Nat) : String :=
  if rs = 0 then "disconnected"
  else if rs = 1 then "connected"
  else if rs = 2 then "connecting"
  else if rs = 3 then "disconnecting"
  else "unknown"

/-- Shape of process.memoryUsage() as reported by the health handler. -/
structure MemoryUsage where
  rss : Nat
  heapTotal : Nat
  heapUsed : Nat
  external : Nat
deriving DecidableEq, Repr

/-- The database block of the enhanced health response
(server.js lines 501-507 and 512-522). -/
structure HealthDatabase where
  status : String
  readyState : Nat
  connected : Bool
  host : String
  name : String
  ping : Option String
  pingError : Option String
deriving DecidableEq, Repr

/-- The enhanced health response body (server.js lines 496-510). -/
structure HealthData where
  status : String
  message : String
  environment : String
  database : HealthDatabase
  memory : MemoryUsage
  uptime : Nat
deriving DecidableEq, Repr

/-- The enhanced health handler of server.js lines 486-534: reads
mongoose.connection.readyState, reports connected as readyState === 1,
pings the database only when readyState is 1, and replies 200 with the
assembled body. -/
def healthHandler (rs : Nat) (host dbname env : String) (mem : MemoryUsage)
    (up : Nat) (pingRes : Except String Unit) : Nat × HealthData :=
  let db0 : HealthDatabase :=
    { status := dbStatusText rs, readyState := rs, connected := rs == 1
      host := host, name := dbname, ping := none, pingError := none }
  let db :=
    if rs = 1 then
      match pingRes with
      | .ok _ => { db0 with ping := some "success" }
      | .error pe => { db0 with ping := some "failed", pingError := some pe }
    else db0
  (200,
   { status := "OK", message := "Campus Recruitment API is running"
     environment := env, database := db, memory := mem, uptime := up })

end BracuOut

namespace BracuOut

section Helpers

theorem ensureStep_arrive_connected (s : DbState) (c : Nat)
    (h : s.readyState = 1) :
    ensureStep s (.arrive c) = (s, [(c, .proceed)]) := by
  simp [ensureStep, h]

theorem ensureStep_arrive_connecting (s : DbState) (c : Nat)
    (h : s.readyState = 2) :
    ensureStep s (.arrive c) = ({ s with waiters := s.waiters ++ [c] }, []) := by
  simp [ensureStep, h]

theorem ensureStep_resolveOk_connecting (s : DbState) (h : Nat)
    (hs : s.readyState = 2) :
    ensureStep s (.resolveOk h) =
      ({ readyState := 1, cachedDb := some h, waiters := [], owner := none
         attempts := s.attempts },
       (s.owner.toList ++ s.waiters).map fun c => (c, .proceed)) := by
  simp [ensureStep, hs]

theorem ensureStep_resolveErr_connecting (s : DbState) (e : JsError)
    (hs : s.readyState = 2) :
    ensureStep s (.resolveErr e) =
      ({ readyState := 0, cachedDb := none, waiters := [], owner := none
         attempts := s.attempts },
       (s.owner.toList ++ s.waiters).map fun c => (c, .error500)) := by
  simp [ensureStep, hs]

theorem runEvents_append (s : DbState) (es1 es2 : List Event) :
    runEvents s (es1 ++ es2) =
      ((runEvents (runEvents s es1).1 es2).1,
       (runEvents s es1).2 ++ (runEvents (runEvents s es1).1 es2).2) := by
  induction es1 generalizing s with
  | nil => simp [runEvents]
  | cons e es ih => simp [runEvents, ih, List.append_assoc]

theorem runEvents_single (s : DbState) (e : Event) :
    runEvents s [e] = ensureStep s e := by
  simp [runEvents]

theorem runArrivals_connecting (s : DbState) (cs : List Nat)
    (h : s.readyState = 2) :
    runEvents s (cs.map Event.arrive) =
      ({ s with waiters := s.waiters ++ cs }, []) := by
  induction cs generalizing s with
  | nil => simp [runEvents]
  | cons c cs ih =>
    rw [List.map_cons]
    simp only [runEvents]
    rw [ensureStep_arrive_connecting s c h]
    rw [ih { s with waiters := s.waiters ++ [c] } h]
    simp [List.append_assoc]

theorem runArrivals_connected (s : DbState) (cs : List Nat)
    (h : s.readyState = 1) :
    runEvents s (cs.map Event.arrive) =
      (s, cs.map fun c => (c, Outcome.proceed)) := by
  induction cs with
  | nil => simp [runEvents]
  | cons c cs ih =>
    simp only [List.map_cons, runEvents]
    rw [ensureStep_arrive_connected s c h, ih]
    rfl

theorem healthHandler_connected (rs : Nat) (host dbname env : String)
    (mem : MemoryUsage) (up : Nat) (pingRes : Except String Unit) :
    (healthHandler rs host dbname env mem up pingRes).2.database.connected
      = (rs == 1) := by
  by_cases h : rs = 1 <;> cases pingRes <;> simp [healthHandler, h]

theorem readyState_stays_non_connected (evts : List Event)
    (h : ∀ e ∈ evts, isResolveOk e = false) (s : DbState)
    (hs : s.readyState ≠ 1) :
    (runEvents s evts).1.readyState ≠ 1 := by
  induction evts generalizing s with
  | nil => simpa [runEvents]
  | cons e es ih =>
    simp only [runEvents]
    apply ih (fun x hx => h x (List.mem_cons_of_mem _ hx))
    cases e with
    | arrive c =>
        simp only [ensureStep]
        split
        · exact hs
        · split
          · simpa using hs
          · simp
    | resolveOk h' =>
        exact absurd (h _ (List.mem_cons_self _ _)) (by simp [isResolveOk])
    | resolveErr e' =>
        simp only [ensureStep]
        split
        · simp
        · exact hs

end Helpers

end BracuOut

namespace BracuOut

/-- C2: after a successful connect (readyState 1, cachedDb holding a
handle) every subsequent caller of the ensure-connected middleware
proceeds with the state unchanged and zero new mongoose.connect calls,
and connectDB itself takes the cached fast path, returning the cached
handle without I/O. -/
theorem connected_fast_path (s : DbState) (h : Nat) (cs : List Nat)
    (h1 : s.readyState = 1) (h2 : s.cachedDb = some h) :
    (runEvents s (cs.map Event.arrive)).1 = s ∧
    (runEvents s (cs.map Event.arrive)).1.attempts = s.attempts ∧
    (∀ c ∈ cs, (c, Outcome.proceed) ∈ (runEvents s (cs.map Event.arrive)).2) ∧
    connectDB s.cachedDb s.readyState = ConnectAction.useCached h := by
  rw [runArrivals_connected s cs h1]
  refine ⟨rfl, rfl, ?_, ?_⟩
  · intro c hc
    simp only [List.mem_map]
    exact ⟨c, hc, rfl⟩
  · rw [h2, h1]
    simp [connectDB]

/-- C2 witness: starting connected with cached handle 7, two sequential
callers leave the state untouched, the attempt counter stays at 1, the
first caller proceeds, and connectDB returns the cached handle. -/
theorem connected_fast_path_witness :
    (runEvents ⟨1, some 7, [], none, 1⟩ ([10, 11].map Event.arrive)).1
      = ⟨1, some 7, [], none, 1⟩ ∧
    (runEvents ⟨1, some 7, [], none, 1⟩ ([10, 11].map Event.arrive)).1.attempts
      = 1 ∧
    (10, Outcome.proceed) ∈
      (runEvents ⟨1, some 7, [], none, 1⟩ ([10, 11].map Event.arrive)).2 ∧
    connectDB (⟨1, some 7, [], none, 1⟩ : DbState).cachedDb
      (⟨1, some 7, [], none, 1⟩ : DbState).readyState
      = ConnectAction.useCached 7 :=
  ⟨(connected_fast_path ⟨1, some 7, [], none, 1⟩ 7 [10, 11] rfl rfl).1,
   (connected_fast_path ⟨1, some 7, [], none, 1⟩ 7 [10, 11] rfl rfl).2.1,
   (connected_fast_path ⟨1, some 7, [], none, 1⟩ 7 [10, 11] rfl rfl).2.2.1
     10 (by decide),
   (connected_fast_path ⟨1, some 7, [], none, 1⟩ 7 [10, 11] rfl rfl).2.2.2⟩

/-- C4: a connection failure terminates the process only at startup
in the long-lived deployment modes (the local startup of part_001 and the
server.js startup both exit with code 1); in the per-request serverless
mode the same failure yields the 500 JSON response to the triggering
request and never an exit, so the process survives for the next request. -/
theorem failure_fatal_only_at_startup (e : JsError) (p h : Nat) :
    localStartup (Except.error e) p = ProcessEffect.exit 1 ∧
    localStartup (Except.ok h) p = ProcessEffect.listen p ∧
    serverJsStartup (Except.error e) p = ProcessEffect.exit 1 ∧
    ensureDbConnectedResult (Except.error e) =
      ProcessEffect.respond ⟨500, ⟨false, "Failed to connect to database"⟩⟩ ∧
    (∀ c, ensureDbConnectedResult (Except.error e) ≠ ProcessEffect.exit c) := by
  refine ⟨rfl, rfl, rfl, rfl, fun c hne => ?_⟩
  simp [ensureDbConnectedResult] at hne

/-- C6: every attempt action produced by connectDB carries exactly the
documented bounded timeouts: 5000 ms server selection, 45000 ms socket,
10000 ms connect. -/
theorem connect_timeouts (cachedDb : Option Nat) (rs : Nat)
    (opts : ConnectOptions) (h : connectDB cachedDb rs = .attempt opts) :
    opts.serverSelectionTimeoutMS = 5000 ∧
    opts.socketTimeoutMS = 45000 ∧
    opts.connectTimeoutMS = 10000 := by
  have hopts : opts = connectOptions := by
    cases cachedDb with
    | none =>
        simp only [connectDB] at h
        exact (ConnectAction.attempt.inj h).symm
    | some hd =>
        simp only [connectDB] at h
        split at h
        · exact absurd h (by simp)
        · exact (ConnectAction.attempt.inj h).symm
  subst hopts
  exact ⟨rfl, rfl, rfl⟩

/-- C6 witness: the attempt made from the empty cache carries the three
documented timeouts. -/
theorem connect_timeouts_witness :
    connectOptions.serverSelectionTimeoutMS = 5000 ∧
    connectOptions.socketTimeoutMS = 45000 ∧
    connectOptions.connectTimeoutMS = 10000 :=
  connect_timeouts none 0 connectOptions rfl

/-- C9: the cached fast path of connectDB fires only when the cached
handle is present AND readyState is 1; with a stale handle but any
non-connected readyState a fresh attempt is made, identically to the
never-connected case, and a successful attempt overwrites the cache with
the new handle. -/
theorem fast_path_requires_handle_and_ready (h rs : Nat) (hrs : rs ≠ 1) :
    connectDB (some h) 1 = ConnectAction.useCached h ∧
    connectDB (some h) rs = ConnectAction.attempt connectOptions ∧
    connectDB none rs = ConnectAction.attempt connectOptions ∧
    connectDB (some h) rs = connectDB none rs ∧
    (∀ conn : Nat, connectDBFinish (Except.ok conn)
      = (some conn, Except.ok conn)) := by
  refine ⟨by simp [connectDB], by simp [connectDB, hrs], rfl,
    by simp [connectDB, hrs], fun conn => rfl⟩

/-- C9 witness: with cached handle 5 and a dropped connection
(readyState 0), connectDB starts a fresh attempt exactly as if never
connected, while readyState 1 takes the fast path. -/
theorem fast_path_requires_handle_and_ready_witness :
    connectDB (some 5) 1 = ConnectAction.useCached 5 ∧
    connectDB (some 5) 0 = ConnectAction.attempt connectOptions ∧
    connectDB none 0 = ConnectAction.attempt connectOptions ∧
    connectDB (some 5) 0 = connectDB none 0 ∧
    connectDBFinish (Except.ok 3) = (some 3, Except.ok 3) :=
  ⟨(fast_path_requires_handle_and_ready 5 0 (by decide)).1,
   (fast_path_requires_handle_and_ready 5 0 (by decide)).2.1,
   (fast_path_requires_handle_and_ready 5 0 (by decide)).2.2.1,
   (fast_path_requires_handle_and_ready 5 0 (by decide)).2.2.2.1,
   (fast_path_requires_handle_and_ready 5 0 (by decide)).2.2.2.2 3⟩

/-- C10: the 500 response produced by the ensure-connected middleware is
one constant body regardless of the underlying error: two failures with
different errors produce identical responses, equal to the literal
success false with the fixed message, and no field of the JsError reaches
the response. -/
theorem failure_response_independent_of_error (e1 e2 : JsError) :
    ensureDbConnectedResult (Except.error e1)
      = ensureDbConnectedResult (Except.error e2) ∧
    ensureDbConnectedResult (Except.error e1) =
      ProcessEffect.respond ⟨500, ⟨false, "Failed to connect to database"⟩⟩ ∧
    outcomeResponse Outcome.error500 =
      some ⟨500, ⟨false, "Failed to connect to database"⟩⟩ :=
  ⟨rfl, rfl, rfl⟩

end BracuOut

namespace BracuOut

/-- C1: for any group of callers arriving while the state is Connecting
(readyState 2), the mongoose.connect counter does not move — the only
attempt involved is the one already in flight — and once that single
attempt resolves, every one of those callers observes the shared outcome
(proceed on success, the 500 path on failure). -/
theorem connecting_callers_share_single_attempt (s : DbState) (cs : List Nat)
    (r : Except JsError Nat) (hs : s.readyState = 2) :
    (runEvents s (cs.map Event.arrive ++ [resolveEvent r])).1.attempts
      = s.attempts ∧
    ∀ c ∈ cs, (c, resolveOutcome r) ∈
      (runEvents s (cs.map Event.arrive ++ [resolveEvent r])).2 := by
  have h1 := runArrivals_connecting s cs hs
  cases r with
  | ok h =>
      simp only [resolveEvent, resolveOutcome, runEvents_append, h1,
        runEvents_single]
      rw [ensureStep_resolveOk_connecting { s with waiters := s.waiters ++ cs }
        h hs]
      refine ⟨rfl, fun c hc => ?_⟩
      simp only [List.nil_append, List.mem_map]
      exact ⟨c, by simp [hc], rfl⟩
  | error e =>
      simp only [resolveEvent, resolveOutcome, runEvents_append, h1,
        runEvents_single]
      rw [ensureStep_resolveErr_connecting { s with waiters := s.waiters ++ cs }
        e hs]
      refine ⟨rfl, fun c hc => ?_⟩
      simp only [List.nil_append, List.mem_map]
      exact ⟨c, by simp [hc], rfl⟩

/-- C1 witness: three callers arrive during an in-flight attempt that
later succeeds; the attempt counter stays at 1 and caller 2 observes the
shared success. -/
theorem connecting_callers_share_single_attempt_witness :
    (runEvents ⟨2, none, [], some 0, 1⟩
      ([1, 2, 3].map Event.arrive ++ [resolveEvent (Except.ok 9)])).1.attempts
      = 1 ∧
    (2, resolveOutcome (Except.ok 9)) ∈
      (runEvents ⟨2, none, [], some 0, 1⟩
        ([1, 2, 3].map Event.arrive ++ [resolveEvent (Except.ok 9)])).2 :=
  ⟨(connecting_callers_share_single_attempt ⟨2, none, [], some 0, 1⟩ [1, 2, 3]
      (Except.ok 9) rfl).1,
   (connecting_callers_share_single_attempt ⟨2, none, [], some 0, 1⟩ [1, 2, 3]
      (Except.ok 9) rfl).2 2 (by decide)⟩

/-- C3: when the in-flight attempt fails, the cached handle is cleared,
readyState returns to 0 (disconnected), no retry happens inside the
resolution (counter unchanged), every parked caller receives the shared
error outcome, connectDBFinish propagates the error with a null cache,
and the very next arriving caller starts a fresh attempt, incrementing
the counter. -/
theorem failed_attempt_clears_cache_and_next_call_retries
    (s : DbState) (e : JsError) (c : Nat) (hs : s.readyState = 2) :
    (ensureStep s (.resolveErr e)).1.cachedDb = none ∧
    (ensureStep s (.resolveErr e)).1.readyState = 0 ∧
    (ensureStep s (.resolveErr e)).1.attempts = s.attempts ∧
    (∀ w ∈ s.waiters,
      (w, Outcome.error500) ∈ (ensureStep s (.resolveErr e)).2) ∧
    connectDBFinish (Except.error e) = (none, Except.error e) ∧
    (ensureStep (ensureStep s (.resolveErr e)).1 (.arrive c)).1.attempts
      = s.attempts + 1 := by
  rw [ensureStep_resolveErr_connecting s e hs]
  refine ⟨rfl, rfl, rfl, ?_, rfl, ?_⟩
  · intro w hw
    simp only [List.mem_map]
    exact ⟨w, by simp [hw], rfl⟩
  · simp [ensureStep]

/-- C3 witness: a connection-refused failure with caller 4 parked clears
the cache, returns to disconnected, delivers the error to caller 4, and
the next arrival (caller 8) makes attempt number 2. -/
theorem failed_attempt_clears_cache_and_next_call_retries_witness :
    (ensureStep ⟨2, none, [4], some 3, 1⟩
      (Event.resolveErr ⟨"refused", some "ECONNREFUSED", "Error"⟩)).1.cachedDb
      = none ∧
    (ensureStep ⟨2, none, [4], some 3, 1⟩
      (Event.resolveErr ⟨"refused", some "ECONNREFUSED", "Error"⟩)).1.readyState
      = 0 ∧
    (4, Outcome.error500) ∈ (ensureStep ⟨2, none, [4], some 3, 1⟩
      (Event.resolveErr ⟨"refused", some "ECONNREFUSED", "Error"⟩)).2 ∧
    (ensureStep (ensureStep ⟨2, none, [4], some 3, 1⟩
      (Event.resolveErr ⟨"refused", some "ECONNREFUSED", "Error"⟩)).1
      (Event.arrive 8)).1.attempts = 2 :=
  ⟨(failed_attempt_clears_cache_and_next_call_retries ⟨2, none, [4], some 3, 1⟩
      ⟨"refused", some "ECONNREFUSED", "Error"⟩ 8 rfl).1,
   (failed_attempt_clears_cache_and_next_call_retries ⟨2, none, [4], some 3, 1⟩
      ⟨"refused", some "ECONNREFUSED", "Error"⟩ 8 rfl).2.1,
   (failed_attempt_clears_cache_and_next_call_retries ⟨2, none, [4], some 3, 1⟩
      ⟨"refused", some "ECONNREFUSED", "Error"⟩ 8 rfl).2.2.2.1 4 (by decide),
   (failed_attempt_clears_cache_and_next_call_retries ⟨2, none, [4], some 3, 1⟩
      ⟨"refused", some "ECONNREFUSED", "Error"⟩ 8 rfl).2.2.2.2.2⟩

/-- C7: the catch block of connectDB classifies each failure by the
first matching test of the chain ENOTFOUND, ECONNREFUSED, MongoServerError,
MongooseServerSelectionError, with unknown as the fallback; its
structured log contains the error message, code, and name; and in the
per-request mode the failure yields a response, never a process exit. -/
theorem failure_classification (e : JsError) :
    (e.code = some "ENOTFOUND" → classifyError e = FailureKind.dnsResolution) ∧
    (e.code ≠ some "ENOTFOUND" → e.code = some "ECONNREFUSED" →
      classifyError e = FailureKind.connectionRefused) ∧
    (e.code ≠ some "ENOTFOUND" → e.code ≠ some "ECONNREFUSED" →
      e.name = "MongoServerError" →
      classifyError e = FailureKind.authFailure) ∧
    (e.code ≠ some "ENOTFOUND" → e.code ≠ some "ECONNREFUSED" →
      e.name ≠ "MongoServerError" → e.name = "MongooseServerSelectionError" →
      classifyError e = FailureKind.timeout) ∧
    (e.code ≠ some "ENOTFOUND" → e.code ≠ some "ECONNREFUSED" →
      e.name ≠ "MongoServerError" → e.name ≠ "MongooseServerSelectionError" →
      classifyError e = FailureKind.unknown) ∧
    ("   Error: " ++ e.message) ∈ connectDBFailureLog e ∧
    ("   Code: " ++ codeText e.code) ∈ connectDBFailureLog e ∧
    ("   Name: " ++ e.name) ∈ connectDBFailureLog e ∧
    (∀ c, ensureDbConnectedResult (Except.error e) ≠ ProcessEffect.exit c) := by
  refine ⟨?_, ?_, ?_, ?_, ?_, ?_, ?_, ?_, ?_⟩
  · intro h1; simp [classifyError, h1]
  · intro h1 h2; simp [classifyError, h1, h2]
  · intro h1 h2 h3; simp [classifyError, h1, h2, h3]
  · intro h1 h2 h3 h4; simp [classifyError, h1, h2, h3, h4]
  · intro h1 h2 h3 h4; simp [classifyError, h1, h2, h3, h4]
  · simp [connectDBFailureLog]
  · simp [connectDBFailureLog]
  · simp [connectDBFailureLog]
  · intro c hne; simp [ensureDbConnectedResult] at hne

/-- C7 witness: one concrete error of each kind is classified as the
chain of the source dictates. -/
theorem failure_classification_witness :
    classifyError ⟨"dns fail", some "ENOTFOUND", "Error"⟩
      = FailureKind.dnsResolution ∧
    classifyError ⟨"refused", some "ECONNREFUSED", "Error"⟩
      = FailureKind.connectionRefused ∧
    classifyError ⟨"bad auth", none, "MongoServerError"⟩
      = FailureKind.authFailure ∧
    classifyError ⟨"timed out", none, "MongooseServerSelectionError"⟩
      = FailureKind.timeout ∧
    classifyError ⟨"weird", none, "TypeError"⟩ = FailureKind.unknown :=
  ⟨(failure_classification ⟨"dns fail", some "ENOTFOUND", "Error"⟩).1 rfl,
   (failure_classification ⟨"refused", some "ECONNREFUSED", "Error"⟩).2.1
     (by decide) rfl,
   (failure_classification ⟨"bad auth", none, "MongoServerError"⟩).2.2.1
     (by decide) (by decide) rfl,
   (failure_classification
      ⟨"timed out", none, "MongooseServerSelectionError"⟩).2.2.2.1
     (by decide) (by decide) (by decide) rfl,
   (failure_classification ⟨"weird", none, "TypeError"⟩).2.2.2.2.1
     (by decide) (by decide) (by decide) (by decide)⟩

/-- C8: one invocation of the ensure-connected middleware makes at most
one connect attempt: an arrival raises the ghost counter by at most one,
by exactly one from a state that is neither connected nor connecting
(disconnected or failed), by zero from connected or connecting, and the
resolution of an attempt never raises it, so any further attempt can only
come from a later arrival. -/
theorem single_attempt_per_invocation (s : DbState) (c : Nat) :
    (ensureStep s (.arrive c)).1.attempts ≤ s.attempts + 1 ∧
    (s.readyState ≠ 1 → s.readyState ≠ 2 →
      (ensureStep s (.arrive c)).1.attempts = s.attempts + 1) ∧
    (s.readyState = 1 ∨ s.readyState = 2 →
      (ensureStep s (.arrive c)).1.attempts = s.attempts) ∧
    (∀ r : Except JsError Nat,
      (ensureStep s (resolveEvent r)).1.attempts = s.attempts) := by
  refine ⟨?_, ?_, ?_, ?_⟩
  · by_cases h1 : s.readyState = 1
    · simp [ensureStep, h1]
    · by_cases h2 : s.readyState = 2 <;> simp [ensureStep, h1, h2]
  · intro h1 h2
    simp [ensureStep, h1, h2]
  · rintro (h | h) <;> simp [ensureStep, h]
  · intro r
    cases r with
    | ok h =>
        simp only [resolveEvent, ensureStep]
        split <;> rfl
    | error e =>
        simp only [resolveEvent, ensureStep]
        split <;> rfl

/-- C8 witness: from the fresh disconnected state an arrival makes
exactly the first attempt, while from a connected state an arrival makes
none. -/
theorem single_attempt_per_invocation_witness :
    (ensureStep initState (Event.arrive 0)).1.attempts
      = initState.attempts + 1 ∧
    (ensureStep ⟨1, some 7, [], none, 1⟩ (Event.arrive 0)).1.attempts = 1 :=
  ⟨(single_attempt_per_invocation initState 0).2.1 (by decide) (by decide),
   (single_attempt_per_invocation ⟨1, some 7, [], none, 1⟩ 0).2.2.1
     (Or.inl rfl)⟩

/-- C5: the enhanced health handler replies 200 with status OK and
reports readyState, uptime, memory and a connected boolean that holds
exactly when readyState is 1; along any event trace without a successful
resolution, starting from the fresh process state, the reported connected
boolean is false, and immediately after the in-flight attempt resolves
successfully it is true. -/
theorem health_reports_db_connected
    (evts : List Event) (hnos : ∀ e ∈ evts, isResolveOk e = false)
    (s2 : DbState) (hs2 : s2.readyState = 2) (hconn : Nat)
    (host dbname env : String) (mem : MemoryUsage) (up : Nat)
    (pingRes : Except String Unit) :
    (∀ rs, (healthHandler rs host dbname env mem up pingRes).1 = 200 ∧
      (healthHandler rs host dbname env mem up pingRes).2.status = "OK" ∧
      (healthHandler rs host dbname env mem up
        pingRes).2.database.readyState = rs ∧
      (healthHandler rs host dbname env mem up pingRes).2.uptime = up ∧
      (healthHandler rs host dbname env mem up pingRes).2.memory = mem ∧
      ((healthHandler rs host dbname env mem up
        pingRes).2.database.connected = true ↔ rs = 1)) ∧
    (healthHandler (runEvents initState evts).1.readyState host dbname env
      mem up pingRes).2.database.connected = false ∧
    (healthHandler (ensureStep s2 (Event.resolveOk hconn)).1.readyState host
      dbname env mem up pingRes).2.database.connected = true := by
  refine ⟨?_, ?_, ?_⟩
  · intro rs
    by_cases h : rs = 1 <;> cases pingRes <;> simp [healthHandler, h]
  · have hne := readyState_stays_non_connected evts hnos initState (by decide)
    rw [healthHandler_connected]
    simpa using hne
  · rw [ensureStep_resolveOk_connecting s2 hconn hs2, healthHandler_connected]
    rfl

/-- C5 witness: with one non-resolving event the reported connected
boolean is false; after the pending attempt resolves successfully it is
true; and the handler replies 200. -/
theorem health_reports_db_connected_witness :
    (healthHandler 1 "h" "d" "dev" ⟨1, 2, 3, 4⟩ 5 (Except.ok ())).1 = 200 ∧
    (healthHandler (runEvents initState [Event.arrive 1]).1.readyState "h"
      "d" "dev" ⟨1, 2, 3, 4⟩ 5 (Except.ok ())).2.database.connected = false ∧
    (healthHandler (ensureStep ⟨2, none, [], some 1, 1⟩
      (Event.resolveOk 9)).1.readyState "h" "d" "dev" ⟨1, 2, 3, 4⟩ 5
      (Except.ok ())).2.database.connected = true :=
  ⟨((health_reports_db_connected [Event.arrive 1] (by decide)
      ⟨2, none, [], some 1, 1⟩ rfl 9 "h" "d" "dev" ⟨1, 2, 3, 4⟩ 5
      (Except.ok ())).1 1).1,
   (health_reports_db_connected [Event.arrive 1] (by decide)
      ⟨2, none, [], some 1, 1⟩ rfl 9 "h" "d" "dev" ⟨1, 2, 3, 4⟩ 5
      (Except.ok ())).2.1,
   (health_reports_db_connected [Event.arrive 1] (by decide)
      ⟨2, none, [], some 1, 1⟩ rfl 9 "h" "d" "dev" ⟨1, 2, 3, 4⟩ 5
      (Except.ok ())).2.2⟩

end BracuOut
